import Mathlib

/-!
Shallow embedding of the core of the ecommerce backend:
the inventory ledger (`InventoryService`, src/src/inventory/inventory.service.ts),
order creation and the order status machine (`OrdersService`, src/unnamed/part_007,
with `STATUS_TRANSITIONS` from src/src/orders/dto/update-order-status.dto.ts),
and the shipment lifecycle (`ShipmentsService`, src/src/shipments/shipments.service.ts,
with `SHIPMENT_STATUS_TRANSITIONS` from the shipments DTO module).

Rows are Lean structures mirroring the drizzle schema (src/src/database/schema.ts);
the database is a `State` of row lists.  Each service method becomes a function
`State → args → State × Except Err result`: the returned state is the committed
state, and since every method either performs no write before throwing or wraps
all writes in `db.transaction` (rolled back when an exception propagates), the
state component equals the input state whenever the result is `.error`.
Monetary amounts are integer cents; the `numeric(12,2)` catalog price is a
rational, and JavaScript `Math.round` on nonnegative values is `⌊x + 1/2⌋`.
Timestamps are abstract `Nat` clock values passed in by the caller.
-/

namespace ECom

/-- Order statuses, from `ORDER_STATUSES` in src/src/orders/dto/update-order-status.dto.ts. -/
inductive OrderStatus
  | PENDING_PAYMENT
  | PAID
  | PROCESSING
  | SHIPPED
  | DELIVERED
  | CANCELLED
  | REFUNDED
  | FAILED
deriving DecidableEq, Repr

/-- `STATUS_TRANSITIONS` from src/src/orders/dto/update-order-status.dto.ts:
key = current status, value = allowed next statuses. -/
def STATUS_TRANSITIONS : OrderStatus → List OrderStatus
  | .PENDING_PAYMENT => [.PAID, .CANCELLED, .FAILED]
  | .PAID => [.PROCESSING, .CANCELLED, .REFUNDED]
  | .PROCESSING => [.SHIPPED, .CANCELLED]
  | .SHIPPED => [.DELIVERED, .FAILED]
  | .DELIVERED => [.REFUNDED]
  | .CANCELLED => []
  | .REFUNDED => []
  | .FAILED => [.PROCESSING]

/-- Shipment statuses, from `SHIPMENT_STATUSES` in the shipments DTO module. -/
inductive ShipmentStatus
  | ASSIGNED
  | IN_TRANSIT
  | DELIVERED
  | FAILED
  | RETURNED
deriving DecidableEq, Repr

/-- `SHIPMENT_STATUS_TRANSITIONS` from the shipments DTO module
(file concatenated with src/src/shipments/shipments.module.ts). -/
def SHIPMENT_STATUS_TRANSITIONS : ShipmentStatus → List ShipmentStatus
  | .ASSIGNED => [.IN_TRANSIT, .FAILED]
  | .IN_TRANSIT => [.DELIVERED, .FAILED]
  | .FAILED => [.RETURNED, .IN_TRANSIT]
  | .DELIVERED => []
  | .RETURNED => []

/-- A row of `products` (schema.ts): catalog entry with the legacy duplicate
`inventory` counter.  `price` is `numeric(12,2)`, embedded as a rational. -/
structure Product where
  id : Nat
  name : String
  price : ℚ
  inventory : Int
  status : String
deriving DecidableEq, Repr

/-- A row of `inventory_items` (schema.ts): the stock-ledger record. -/
structure InventoryItem where
  id : Nat
  productId : Nat
  quantity : Int
  lowStockThreshold : Int
  lastAdjustedAt : Option Nat
deriving DecidableEq, Repr

/-- A row of `inventory_adjustments` (schema.ts): append-only audit log. -/
structure InventoryAdjustment where
  inventoryItemId : Nat
  adjustment : Int
  reason : Option String
  adjustedBy : Option Nat
deriving DecidableEq, Repr

/-- A row of `orders` (schema.ts).  `totalAmount` is stored in cents. -/
structure Order where
  id : Nat
  userId : Nat
  status : OrderStatus
  totalAmount : Int
  shippingAddress : String
deriving DecidableEq, Repr

/-- A row of `order_items` (schema.ts).  `unitPrice` is stored in cents. -/
structure OrderItem where
  orderId : Nat
  productId : Nat
  productName : String
  quantity : Int
  unitPrice : Int
deriving DecidableEq, Repr

/-- A row of `order_status_history` (schema.ts): append-only audit trail. -/
structure HistoryRow where
  orderId : Nat
  status : OrderStatus
  note : Option String
  changedBy : Option Nat
deriving DecidableEq, Repr

/-- A row of `shipments` (migration 0006_shipments.sql; `order_id` is UNIQUE there). -/
structure Shipment where
  id : Nat
  orderId : Nat
  staffUserId : Nat
  status : ShipmentStatus
  trackingNumber : Option String
deriving DecidableEq, Repr

/-- A row of `users` (schema.ts), reduced to what the core services read. -/
structure User where
  id : Nat
  role : String
deriving DecidableEq, Repr

/-- The persistent store: one list per table, plus fresh-id counters. -/
structure State where
  products : List Product
  inventoryItems : List InventoryItem
  inventoryAdjustments : List InventoryAdjustment
  orders : List Order
  orderItems : List OrderItem
  orderStatusHistory : List HistoryRow
  shipments : List Shipment
  users : List User
  nextOrderId : Nat
  nextShipmentId : Nat
  nextInventoryItemId : Nat
deriving DecidableEq, Repr

/-- Failure kinds of the core services.  Each constructor corresponds to one
`throw` site and carries the context the source interpolates into its message. -/
inductive Err
  | productNotFound (productId : Nat)
  | productNotPurchasable (name : String)
  | insufficientStock (name : String) (requested available : Int)
  | stockChanged (productId : Nat)
  | orderNotFound
  | invalidTransition (current target : OrderStatus) (allowed : List OrderStatus)
  | inventoryNotFound
  | invalidAdjustment (current adjustment : Int)
  | orderNotShippable (current : OrderStatus)
  | shipmentConflict
  | staffNotFound
  | notStaffRole
  | shipmentNotFound
  | shipmentInvalidTransition (current target : ShipmentStatus)
      (allowed : List ShipmentStatus)
deriving DecidableEq, Repr

/-- `SELECT ... FROM products WHERE id = pid LIMIT 1`. -/
def State.findProduct (s : State) (pid : Nat) : Option Product :=
  s.products.find? (fun p => p.id == pid)

/-- `SELECT ... FROM inventory_items WHERE product_id = pid LIMIT 1`. -/
def State.findInventoryByProduct (s : State) (pid : Nat) : Option InventoryItem :=
  s.inventoryItems.find? (fun i => i.productId == pid)

/-- `SELECT ... FROM orders WHERE id = oid LIMIT 1`. -/
def State.findOrder (s : State) (oid : Nat) : Option Order :=
  s.orders.find? (fun o => o.id == oid)

/-- `SELECT ... FROM shipments WHERE order_id = oid LIMIT 1`. -/
def State.findShipmentByOrder (s : State) (oid : Nat) : Option Shipment :=
  s.shipments.find? (fun sh => sh.orderId == oid)

/-- `SELECT ... FROM shipments WHERE id = sid LIMIT 1`. -/
def State.findShipment (s : State) (sid : Nat) : Option Shipment :=
  s.shipments.find? (fun sh => sh.id == sid)

/-- `SELECT ... FROM users WHERE id = uid LIMIT 1`. -/
def State.findUser (s : State) (uid : Nat) : Option User :=
  s.users.find? (fun u => u.id == uid)

-- ───────────────────────── InventoryService ─────────────────────────

namespace InventoryService

/-- `InventoryService.ensureInventory` (src/src/inventory/inventory.service.ts):
insert with `onConflictDoNothing` on `productId`; when the row already exists the
insert returns nothing and the existing row is fetched and returned unchanged.
A fresh row gets the schema defaults `lowStockThreshold = 10`, `lastAdjustedAt = null`. -/
def ensureInventory (s : State) (productId : Nat) (initialQuantity : Int) :
    State × InventoryItem :=
  match s.findInventoryByProduct productId with
  | some existing => (s, existing)
  | none =>
    let fresh : InventoryItem :=
      { id := s.nextInventoryItemId
        productId := productId
        quantity := initialQuantity
        lowStockThreshold := 10
        lastAdjustedAt := none }
    ({ s with
        inventoryItems := s.inventoryItems ++ [fresh]
        nextInventoryItemId := s.nextInventoryItemId + 1 },
     fresh)

/-- `InventoryService.adjust` (src/src/inventory/inventory.service.ts):
inside one transaction, read the ledger row with a `FOR UPDATE` lock
(`NotFoundException` when absent), compute `newQuantity = quantity + adjustment`,
throw `BadRequestException` when `newQuantity < 0`, otherwise update the ledger
row (quantity and `lastAdjustedAt`), write `newQuantity` to the duplicate
`products.inventory` counter, and append one `inventory_adjustments` row.
A propagated exception rolls the transaction back, so the error cases return
the input state. -/
def adjust (s : State) (productId : Nat) (adjustment : Int)
    (reason : Option String) (adjustedBy : Option Nat) (now : Nat) :
    State × Except Err (InventoryItem × Int) :=
  match s.findInventoryByProduct productId with
  | none => (s, .error .inventoryNotFound)
  | some item =>
    let newQuantity := item.quantity + adjustment
    if newQuantity < 0 then
      (s, .error (.invalidAdjustment item.quantity adjustment))
    else
      let updatedItem := { item with quantity := newQuantity, lastAdjustedAt := some now }
      ({ s with
          inventoryItems :=
            s.inventoryItems.map (fun i =>
              if i.id == item.id then { i with quantity := newQuantity, lastAdjustedAt := some now } else i)
          products :=
            s.products.map (fun p =>
              if p.id == productId then { p with inventory := newQuantity } else p)
          inventoryAdjustments :=
            s.inventoryAdjustments ++
              [{ inventoryItemId := item.id
                 adjustment := adjustment
                 reason := reason
                 adjustedBy := adjustedBy }] },
       .ok (updatedItem, adjustment))

/-- `InventoryService.updateThreshold` (src/src/inventory/inventory.service.ts):
fetch the ledger row by productId (`NotFoundException` when absent), then update
only its `lowStockThreshold`. -/
def updateThreshold (s : State) (productId : Nat) (newThreshold : Int) :
    State × Except Err InventoryItem :=
  match s.findInventoryByProduct productId with
  | none => (s, .error .inventoryNotFound)
  | some item =>
    ({ s with
        inventoryItems :=
          s.inventoryItems.map (fun i =>
            if i.id == item.id then { i with lowStockThreshold := newThreshold } else i) },
     .ok { item with lowStockThreshold := newThreshold })

end InventoryService

-- ───────────────────────── OrdersService ─────────────────────────

/-- One line of `CreateOrderDto.items` (src/src/orders/dto/create-order.dto.ts):
the caller supplies only a productId and a quantity — the DTO has no price field. -/
structure OrderItemDto where
  productId : Nat
  quantity : Int
deriving DecidableEq, Repr

/-- `CreateOrderDto` (src/src/orders/dto/create-order.dto.ts). -/
structure CreateOrderDto where
  items : List OrderItemDto
  shippingAddress : String
deriving DecidableEq, Repr

/-- Round half up: `⌊q + 1/2⌋`, the behavior of JavaScript `Math.round` on
nonnegative values (the spec's "round-half-up at 2 decimal places" when
applied to `price * 100`). -/
def roundHalfUp (q : ℚ) : Int :=
  Int.floor (q + 1 / 2)

/-- `Math.round(Number(product.price) * 100)` in `OrdersService.create`: the
catalog price `num/den` times 100, rounded half up.  Computed as the integer
floor division `(200·num + den) / (2·den)`, which
`unitPriceCents_eq_roundHalfUp` proves equal to `⌊price * 100 + 1/2⌋`. -/
def unitPriceCents (p : Product) : Int :=
  (200 * p.price.num + (p.price.den : Int)) / (2 * (p.price.den : Int))

namespace OrdersService

/-- The validation loop of `OrdersService.create` (src/unnamed/part_007):
for each item in list order, throw `NotFoundException` when the product is
absent from the pre-read `productMap`, `BadRequestException` when its status
is not `'active'`, and `BadRequestException` (insufficient stock, naming
requested vs. available) when `product.inventory < item.quantity`.
All lookups are against the same pre-transaction read `s`. -/
def validateItems (s : State) : List OrderItemDto → Except Err Unit
  | [] => .ok ()
  | item :: rest =>
    match s.findProduct item.productId with
    | none => .error (.productNotFound item.productId)
    | some p =>
      if p.status ≠ "active" then
        .error (.productNotPurchasable p.name)
      else if p.inventory < item.quantity then
        .error (.insufficientStock p.name item.quantity p.inventory)
      else
        validateItems s rest

/-- Overwrite the `inventory` counter of product `pid`. -/
def State.setProductInventory (s : State) (pid : Nat) (v : Int) : State :=
  { s with
      products :=
        s.products.map (fun p => if p.id == pid then { p with inventory := v } else p) }

/-- The reservation loop inside the `db.transaction` of `OrdersService.create`:
for each item in list order, the conditional update
`SET inventory = inventory - qty WHERE id = pid AND inventory >= qty`;
when it matches no row the whole transaction is aborted with
`BadRequestException` ("Stock changed ... Please refresh and try again").
Each decrement reads the current (possibly already decremented) counter. -/
def reserveStock (s : State) : List OrderItemDto → Except Err State
  | [] => .ok s
  | item :: rest =>
    match s.findProduct item.productId with
    | none => .error (.stockChanged item.productId)
    | some p =>
      if item.quantity ≤ p.inventory then
        reserveStock (State.setProductInventory s item.productId (p.inventory - item.quantity)) rest
      else
        .error (.stockChanged item.productId)

/-- The order line built from the pre-transaction catalog read, as in the
`itemsWithPrice` map of `OrdersService.create` (non-null assertion `!` on the
map lookup; the `none` branch is unreachable after validation). -/
def mkOrderItem (s : State) (oid : Nat) (it : OrderItemDto) : OrderItem :=
  match s.findProduct it.productId with
  | some p =>
    { orderId := oid
      productId := it.productId
      productName := p.name
      quantity := it.quantity
      unitPrice := unitPriceCents p }
  | none =>
    { orderId := oid
      productId := it.productId
      productName := ""
      quantity := it.quantity
      unitPrice := 0 }

/-- `unitPriceCents * quantity` summand of `totalCents`, with the same
unreachable-`none` convention as `mkOrderItem`. -/
def itemTotalCents (s : State) (it : OrderItemDto) : Int :=
  match s.findProduct it.productId with
  | some p => unitPriceCents p * it.quantity
  | none => 0

/-- `OrdersService.create` (src/unnamed/part_007): validate every item against
the pre-read catalog, price each line from the catalog (`totalCents`), then in
one transaction run the per-line conditional decrements of `products.inventory`,
insert the order (`PENDING_PAYMENT`, `totalAmount = totalCents`), its order
items (frozen name, quantity and unit price), and one initial
`order_status_history` row.  Any thrown exception rolls everything back, so
every error case returns the input state. -/
def create (s : State) (userId : Nat) (dto : CreateOrderDto) :
    State × Except Err Order :=
  match validateItems s dto.items with
  | .error e => (s, .error e)
  | .ok () =>
    let totalCents := (dto.items.map (itemTotalCents s)).sum
    match reserveStock s dto.items with
    | .error e => (s, .error e)
    | .ok s1 =>
      let order : Order :=
        { id := s.nextOrderId
          userId := userId
          status := .PENDING_PAYMENT
          totalAmount := totalCents
          shippingAddress := dto.shippingAddress }
      let newItems := dto.items.map (mkOrderItem s order.id)
      let hist : HistoryRow :=
        { orderId := order.id
          status := .PENDING_PAYMENT
          note := some "Order created"
          changedBy := some userId }
      ({ s1 with
          orders := s1.orders ++ [order]
          orderItems := s1.orderItems ++ newItems
          orderStatusHistory := s1.orderStatusHistory ++ [hist]
          nextOrderId := s.nextOrderId + 1 },
       .ok order)

/-- `OrdersService.updateStatus` (src/unnamed/part_007): fetch the order
(`NotFoundException` when absent), look up `STATUS_TRANSITIONS[currentStatus]`,
throw `BadRequestException` naming the current status and the allowed-next list
when the target is not in it, otherwise in one transaction set the status and
append one `order_status_history` row. -/
def updateStatus (s : State) (orderId : Nat) (adminUserId : Nat)
    (target : OrderStatus) (note : Option String) :
    State × Except Err Order :=
  match s.findOrder orderId with
  | none => (s, .error .orderNotFound)
  | some order =>
    let allowedNext := STATUS_TRANSITIONS order.status
    if target ∈ allowedNext then
      let updated := { order with status := target }
      ({ s with
          orders := s.orders.map (fun o => if o.id == orderId then { o with status := target } else o)
          orderStatusHistory :=
            s.orderStatusHistory ++
              [{ orderId := orderId
                 status := target
                 note := note
                 changedBy := some adminUserId }] },
       .ok updated)
    else
      (s, .error (.invalidTransition order.status target allowedNext))

end OrdersService

-- ───────────────────────── ShipmentsService ─────────────────────────

/-- `CreateShipmentDto` (src/src/shipments/dto/create-shipment.dto.ts). -/
structure CreateShipmentDto where
  orderId : Nat
  staffUserId : Nat
  trackingNumber : Option String
deriving DecidableEq, Repr

namespace ShipmentsService

/-- `ShipmentsService.create` (src/src/shipments/shipments.service.ts):
(1) fetch the order, `NotFoundException` when absent; (2) `BadRequestException`
unless its status is `'PAID'` or `'PROCESSING'`; (3) `BadRequestException` when
a shipment already exists for the order (the shipments table additionally
carries a UNIQUE constraint on `order_id`, migration 0006_shipments.sql);
(4) fetch the staff user, `NotFoundException` when absent, `BadRequestException`
unless their role is `'staff'`; then in one transaction insert the shipment
with status `'ASSIGNED'` and, when the order was `'PAID'`, set it to
`'PROCESSING'` and append one history row with `changedBy = null`. -/
def create (s : State) (dto : CreateShipmentDto) :
    State × Except Err Shipment :=
  match s.findOrder dto.orderId with
  | none => (s, .error .orderNotFound)
  | some order =>
    if order.status = .PAID ∨ order.status = .PROCESSING then
      match s.findShipmentByOrder dto.orderId with
      | some _ => (s, .error .shipmentConflict)
      | none =>
        match s.findUser dto.staffUserId with
        | none => (s, .error .staffNotFound)
        | some staffUser =>
          if staffUser.role = "staff" then
            let shipment : Shipment :=
              { id := s.nextShipmentId
                orderId := dto.orderId
                staffUserId := dto.staffUserId
                status := .ASSIGNED
                trackingNumber := dto.trackingNumber }
            let s1 :=
              { s with
                  shipments := s.shipments ++ [shipment]
                  nextShipmentId := s.nextShipmentId + 1 }
            let s2 :=
              if order.status = .PAID then
                { s1 with
                    orders :=
                      s1.orders.map (fun o =>
                        if o.id == dto.orderId then { o with status := .PROCESSING } else o)
                    orderStatusHistory :=
                      s1.orderStatusHistory ++
                        [{ orderId := dto.orderId
                           status := .PROCESSING
                           note := some "Shipment created - order moved to PROCESSING"
                           changedBy := none }] }
              else s1
            (s2, .ok shipment)
          else
            (s, .error .notStaffRole)
    else
      (s, .error (.orderNotShippable order.status))

/-- Modelled from the spec: `ShipmentsService` in src has no status-transition
method — only its declarations exist there (`UpdateShipmentStatusDto` and
`SHIPMENT_STATUS_TRANSITIONS` in the shipments DTO module).  Following spec
§4.4 "transition(shipmentId, targetStatus, note?): same allowed-next validation
pattern as OrderLifecycle", mirroring `OrdersService.updateStatus` over the
src transition table. -/
def transition (s : State) (shipmentId : Nat) (target : ShipmentStatus)
    (note : Option String) : State × Except Err Shipment :=
  match s.findShipment shipmentId with
  | none => (s, .error .shipmentNotFound)
  | some shipment =>
    let allowedNext := SHIPMENT_STATUS_TRANSITIONS shipment.status
    if target ∈ allowedNext then
      ({ s with
          shipments :=
            s.shipments.map (fun sh =>
              if sh.id == shipmentId then { sh with status := target } else sh) },
       .ok { shipment with status := target })
    else
      (s, .error (.shipmentInvalidTransition shipment.status target allowedNext))

end ShipmentsService

-- ───────────────────── Derived notions used in the statements ─────────────────────

/-- An order line passes the validation loop of `OrdersService.create`:
its product exists, is `'active'`, and has `inventory ≥ quantity`. -/
def itemOk (s : State) (it : OrderItemDto) : Prop :=
  ∃ p, s.findProduct it.productId = some p ∧
    p.status = "active" ∧ it.quantity ≤ p.inventory

/-- Total quantity requested for product `pid` across all lines of an order. -/
def aggQty (items : List OrderItemDto) (pid : Nat) : Int :=
  ((items.filter (fun it => it.productId == pid)).map (fun it => it.quantity)).sum

/-- The `products.inventory` counter of product `pid` (0 when absent). -/
def invOf (s : State) (pid : Nat) : Int :=
  match s.findProduct pid with
  | some p => p.inventory
  | none => 0

/-- The ledger quantity of `inventory_items` for product `pid` (0 when absent). -/
def ledgerQty (s : State) (pid : Nat) : Int :=
  match s.findInventoryByProduct pid with
  | some i => i.quantity
  | none => 0

/-- One call of `InventoryService.adjust`, for reasoning about call sequences. -/
structure AdjustCall where
  productId : Nat
  adjustment : Int
  reason : Option String
  adjustedBy : Option Nat
  now : Nat
deriving DecidableEq, Repr

/-- Run a sequence of `InventoryService.adjust` calls, keeping the committed
state of each call (failed calls leave the state as it was). -/
def adjustSeq (s : State) : List AdjustCall → State
  | [] => s
  | c :: cs =>
    adjustSeq (InventoryService.adjust s c.productId c.adjustment c.reason c.adjustedBy c.now).1 cs

-- ───────────────────── Concrete states for witnesses and counterexamples ─────────────────────

/-- An empty store. -/
def baseState : State :=
  { products := []
    inventoryItems := []
    inventoryAdjustments := []
    orders := []
    orderItems := []
    orderStatusHistory := []
    shipments := []
    users := []
    nextOrderId := 1
    nextShipmentId := 1
    nextInventoryItemId := 1 }

/-- The spec §8 scenario start: product P (id 1, price 10) with catalog counter 5
and a ledger record of quantity 5, threshold 10. -/
def scenarioState : State :=
  { baseState with
      products := [{ id := 1, name := "P", price := 10, inventory := 5, status := "active" }]
      inventoryItems :=
        [{ id := 1, productId := 1, quantity := 5, lowStockThreshold := 10,
           lastAdjustedAt := none }] }

/-- Product A exists, is active, but has zero stock; product 2 does not exist. -/
def mixedFailState : State :=
  { baseState with
      products := [{ id := 1, name := "A", price := 10, inventory := 0, status := "active" }] }

/-- Order items naming product 1 (insufficient stock) then product 2 (nonexistent). -/
def mixedFailDto : CreateOrderDto :=
  { items := [{ productId := 1, quantity := 1 }, { productId := 2, quantity := 1 }]
    shippingAddress := "addr" }

/-- Two lines for the same product, 3 + 3 against stock 5. -/
def dupLinesDto : CreateOrderDto :=
  { items := [{ productId := 1, quantity := 3 }, { productId := 1, quantity := 3 }]
    shippingAddress := "addr" }

/-- The spec scenario's order: 3 units of product 1. -/
def singleLineDto : CreateOrderDto :=
  { items := [{ productId := 1, quantity := 3 }], shippingAddress := "a" }

/-- The scenario state after `adjust(P, +20)` at clock 5: both counters 25. -/
def scenarioAfterRestock : State :=
  (InventoryService.adjust scenarioState 1 20 none none 5).1

/-- The state after the scenario's `createOrder([{P, qty:3}])`. -/
def scenarioAfterOrder : State :=
  (OrdersService.create scenarioAfterRestock 1 singleLineDto).1

/-- A single order in `PENDING_PAYMENT`. -/
def orderState : State :=
  { baseState with
      orders :=
        [{ id := 1, userId := 2, status := .PENDING_PAYMENT, totalAmount := 1000,
           shippingAddress := "addr" }] }

/-- A `PAID` order plus a user with the `staff` role, no shipment yet. -/
def shipCreateState : State :=
  { baseState with
      orders :=
        [{ id := 1, userId := 2, status := .PAID, totalAmount := 1000,
           shippingAddress := "addr" }]
      users := [{ id := 9, role := "staff" }] }

/-- One shipment in `ASSIGNED`. -/
def shipmentState : State :=
  { baseState with
      shipments :=
        [{ id := 1, orderId := 1, staffUserId := 9, status := .ASSIGNED,
           trackingNumber := none }] }

-- ───────────────────────── Helper lemmas ─────────────────────────

theorem find?_map_pred {α : Type} (f : α → α) (q : α → Bool)
    (hq : ∀ a, q (f a) = q a) :
    ∀ l : List α, (l.map f).find? q = (l.find? q).map f := by
  intro l
  induction l with
  | nil => rfl
  | cons a l ih =>
    simp only [List.map_cons, List.find?]
    rw [hq a]
    cases h : q a <;> simp [ih]

theorem find?_append_right {α : Type} (q : α → Bool) (l : List α) (a : α)
    (h : l.find? q = none) (ha : q a = true) :
    (l ++ [a]).find? q = some a := by
  induction l with
  | nil => simp [List.find?, ha]
  | cons b l ih =>
    simp only [List.find?] at h ⊢
    cases hb : q b
    · simp only [hb] at h
      simp only [List.cons_append, List.find?, hb]
      exact ih h
    · simp [hb] at h

theorem filter_eq_nil_of_find?_eq_none {α : Type} (q : α → Bool) (l : List α)
    (h : l.find? q = none) : l.filter q = [] := by
  rw [List.filter_eq_nil_iff]
  intro a ha
  have := List.find?_eq_none.mp h a ha
  simpa using this

-- ───────────────────────── Claim theorems ─────────────────────────

/-- C9: `ensureInventory` is idempotent.  If a ledger record already exists for
the productId, the call returns the existing record unchanged with no side
effect on the state; consequently two consecutive calls for the same productId
return the same record both times (the same state as well), and the second
call does not reset the quantity to its `initialQuantity` argument. -/
theorem claim_C9_ensure_idempotent (s : State) (pid : Nat) (q0 q1 : Int) :
    (∀ item, s.findInventoryByProduct pid = some item →
        InventoryService.ensureInventory s pid q0 = (s, item)) ∧
    InventoryService.ensureInventory
        (InventoryService.ensureInventory s pid q0).1 pid q1 =
      InventoryService.ensureInventory s pid q0 := by
  constructor
  · intro item h
    unfold InventoryService.ensureInventory
    rw [h]
  · unfold InventoryService.ensureInventory
    cases h : s.findInventoryByProduct pid with
    | some item => simp [h]
    | none =>
      simp only [h]
      have hfind :
          (State.findInventoryByProduct
            { s with
                inventoryItems :=
                  s.inventoryItems ++
                    [{ id := s.nextInventoryItemId, productId := pid, quantity := q0,
                       lowStockThreshold := 10, lastAdjustedAt := none }]
                nextInventoryItemId := s.nextInventoryItemId + 1 } pid) =
            some { id := s.nextInventoryItemId, productId := pid, quantity := q0,
                   lowStockThreshold := 10, lastAdjustedAt := none } := by
        unfold State.findInventoryByProduct at h ⊢
        exact find?_append_right _ _ _ h (by simp)
      simp [hfind]

/-- C9 witness: in the scenario state (which has a ledger record of quantity 5
for product 1), `ensureInventory` returns the existing record unchanged, and a
repeated call (with a different initialQuantity) changes nothing. -/
theorem claim_C9_witness :
    InventoryService.ensureInventory scenarioState 1 7 =
      (scenarioState,
       { id := 1, productId := 1, quantity := 5, lowStockThreshold := 10,
         lastAdjustedAt := none }) ∧
    InventoryService.ensureInventory
        (InventoryService.ensureInventory scenarioState 1 7).1 1 3 =
      InventoryService.ensureInventory scenarioState 1 7 :=
  ⟨(claim_C9_ensure_idempotent scenarioState 1 7 3).1 _ (by decide),
   (claim_C9_ensure_idempotent scenarioState 1 7 3).2⟩

/-- C10: for a product with an existing ledger record and any newThreshold ≥ 0,
`updateThreshold` changes only that record's `lowStockThreshold`: every
record's id, productId, quantity and lastAdjustedAt are as before, no
`inventory_adjustments` row is appended, and the duplicate `products.inventory`
counter (indeed the whole products table) is untouched, as are all other
tables. -/
theorem claim_C10_updateThreshold_frame (s : State) (pid : Nat) (t : Int)
    (item : InventoryItem) (ht : 0 ≤ t)
    (h : s.findInventoryByProduct pid = some item) :
    (InventoryService.updateThreshold s pid t).2 =
      .ok { item with lowStockThreshold := t } ∧
    (InventoryService.updateThreshold s pid t).1.inventoryItems =
      s.inventoryItems.map
        (fun i => if i.id == item.id then { i with lowStockThreshold := t } else i) ∧
    (InventoryService.updateThreshold s pid t).1.inventoryItems.map
        (fun i => (i.id, i.productId, i.quantity, i.lastAdjustedAt)) =
      s.inventoryItems.map
        (fun i => (i.id, i.productId, i.quantity, i.lastAdjustedAt)) ∧
    (InventoryService.updateThreshold s pid t).1.inventoryAdjustments =
      s.inventoryAdjustments ∧
    (InventoryService.updateThreshold s pid t).1.products = s.products ∧
    (InventoryService.updateThreshold s pid t).1.orders = s.orders ∧
    (InventoryService.updateThreshold s pid t).1.orderItems = s.orderItems ∧
    (InventoryService.updateThreshold s pid t).1.orderStatusHistory =
      s.orderStatusHistory ∧
    (InventoryService.updateThreshold s pid t).1.shipments = s.shipments := by
  refine ⟨?_, ?_, ?_, ?_, ?_, ?_, ?_, ?_, ?_⟩ <;>
    simp only [InventoryService.updateThreshold, h] <;> try rfl
  simp only [List.map_map]
  apply List.map_congr_left
  intro i _
  by_cases hi : i.id = item.id <;> simp [hi]

/-- C10 witness: updating the threshold of product 1 in the scenario state to 15
leaves quantity 5 and everything else intact. -/
theorem claim_C10_witness :
    (InventoryService.updateThreshold scenarioState 1 15).2 =
      .ok { id := 1, productId := 1, quantity := 5, lowStockThreshold := 15,
            lastAdjustedAt := none } ∧
    (InventoryService.updateThreshold scenarioState 1 15).1.products =
      scenarioState.products ∧
    (InventoryService.updateThreshold scenarioState 1 15).1.inventoryAdjustments =
      scenarioState.inventoryAdjustments := by
  have h := claim_C10_updateThreshold_frame scenarioState 1 15
    { id := 1, productId := 1, quantity := 5, lowStockThreshold := 10,
      lastAdjustedAt := none } (by decide) (by decide)
  exact ⟨h.1, h.2.2.2.2.1, h.2.2.2.1⟩

theorem adjust_error_state_eq (s : State) (pid : Nat) (d : Int)
    (reason : Option String) (actor : Option Nat) (now : Nat) (e : Err)
    (h : (InventoryService.adjust s pid d reason actor now).2 = .error e) :
    (InventoryService.adjust s pid d reason actor now).1 = s := by
  unfold InventoryService.adjust at h ⊢
  cases hf : s.findInventoryByProduct pid with
  | none => simp [hf]
  | some item =>
    simp only [hf] at h ⊢
    by_cases hneg : item.quantity + d < 0
    · simp [hneg]
    · simp [hneg] at h

theorem adjust_preserves_nonneg (s : State) (pid : Nat) (d : Int)
    (reason : Option String) (actor : Option Nat) (now : Nat)
    (hs : ∀ i ∈ s.inventoryItems, 0 ≤ i.quantity) :
    ∀ i ∈ (InventoryService.adjust s pid d reason actor now).1.inventoryItems,
      0 ≤ i.quantity := by
  unfold InventoryService.adjust
  cases hf : s.findInventoryByProduct pid with
  | none => simpa using hs
  | some item =>
    by_cases hneg : item.quantity + d < 0
    · simpa [hneg] using hs
    · simp only [hneg, if_false]
      intro i hi
      simp only [List.mem_map] at hi
      obtain ⟨j, hj, rfl⟩ := hi
      by_cases hid : j.id == item.id
      · simp only [hid, if_true]
        omega
      · simp only [hid, if_false]
        exact hs j hj

theorem adjustSeq_preserves_nonneg (calls : List AdjustCall) :
    ∀ s : State, (∀ i ∈ s.inventoryItems, 0 ≤ i.quantity) →
      ∀ i ∈ (adjustSeq s calls).inventoryItems, 0 ≤ i.quantity := by
  induction calls with
  | nil => intro s hs; simpa [adjustSeq] using hs
  | cons c cs ih =>
    intro s hs
    exact ih _ (adjust_preserves_nonneg s c.productId c.adjustment c.reason c.adjustedBy c.now hs)

/-- C3: `adjust` fails NotFound when no ledger record exists for the productId,
fails InvalidAdjustment exactly when `current.quantity + delta < 0`, leaves the
whole state (ledger record, duplicate products counter, adjustment log)
unchanged on every failure, otherwise sets the quantity to
`current.quantity + delta`; consequently, starting from any state with
nonnegative quantities, no sequence of `adjust` calls ever produces a negative
`InventoryRecord.quantity`. -/
theorem claim_C3_adjust (s : State) (pid : Nat) (d : Int)
    (reason : Option String) (actor : Option Nat) (now : Nat) :
    (s.findInventoryByProduct pid = none →
       InventoryService.adjust s pid d reason actor now =
         (s, .error .inventoryNotFound)) ∧
    (∀ item, s.findInventoryByProduct pid = some item →
       (item.quantity + d < 0 →
          InventoryService.adjust s pid d reason actor now =
            (s, .error (.invalidAdjustment item.quantity d))) ∧
       (0 ≤ item.quantity + d →
          (InventoryService.adjust s pid d reason actor now).2 =
            .ok ({ item with
                     quantity := item.quantity + d
                     lastAdjustedAt := some now }, d))) ∧
    (∀ e, (InventoryService.adjust s pid d reason actor now).2 = .error e →
       (InventoryService.adjust s pid d reason actor now).1 = s) ∧
    ((∀ i ∈ s.inventoryItems, 0 ≤ i.quantity) →
       ∀ calls : List AdjustCall,
         ∀ i ∈ (adjustSeq s calls).inventoryItems, 0 ≤ i.quantity) := by
  refine ⟨?_, ?_, ?_, ?_⟩
  · intro h
    unfold InventoryService.adjust
    simp [h]
  · intro item h
    constructor
    · intro hneg
      unfold InventoryService.adjust
      simp [h, hneg]
    · intro hpos
      unfold InventoryService.adjust
      have : ¬ item.quantity + d < 0 := by omega
      simp [h, this]
  · exact adjust_error_state_eq s pid d reason actor now
  · intro hs calls
    exact adjustSeq_preserves_nonneg calls s hs

/-- C3 witness: in the scenario state (quantity 5 for product 1),
`adjust(1, −3)` succeeds with quantity 2, while `adjust(1, −6)` fails
InvalidAdjustment and leaves the state unchanged. -/
theorem claim_C3_witness :
    (InventoryService.adjust scenarioState 1 (-3) none none 4).2 =
      .ok ({ id := 1, productId := 1, quantity := 2, lowStockThreshold := 10,
             lastAdjustedAt := some 4 }, -3) ∧
    InventoryService.adjust scenarioState 1 (-6) none none 4 =
      (scenarioState, .error (.invalidAdjustment 5 (-6))) := by
  constructor
  · exact ((claim_C3_adjust scenarioState 1 (-3) none none 4).2.1
      { id := 1, productId := 1, quantity := 5, lowStockThreshold := 10,
        lastAdjustedAt := none } (by decide)).2 (by decide)
  · exact ((claim_C3_adjust scenarioState 1 (-6) none none 4).2.1
      { id := 1, productId := 1, quantity := 5, lowStockThreshold := 10,
        lastAdjustedAt := none } (by decide)).1 (by decide)

/-- C2: for an existing order, `updateStatus` succeeds iff the target status is
in the allowed-next set of the order's current status under
`STATUS_TRANSITIONS`, whose table is exactly
PENDING_PAYMENT→{PAID,CANCELLED,FAILED}, PAID→{PROCESSING,CANCELLED,REFUNDED},
PROCESSING→{SHIPPED,CANCELLED}, SHIPPED→{DELIVERED,FAILED},
DELIVERED→{REFUNDED}, FAILED→{PROCESSING}, CANCELLED and REFUNDED terminal;
otherwise it fails InvalidTransition carrying the current status and the
allowed-next list and changes nothing; on success it updates the status and
appends exactly one history row in the same step. -/
theorem claim_C2_transition_closure (s : State) (oid admin : Nat)
    (target : OrderStatus) (note : Option String) (order : Order)
    (h : s.findOrder oid = some order) :
    ((∃ o, (OrdersService.updateStatus s oid admin target note).2 = .ok o) ↔
       target ∈ STATUS_TRANSITIONS order.status) ∧
    (target ∈ STATUS_TRANSITIONS order.status →
       (OrdersService.updateStatus s oid admin target note).2 =
         .ok { order with status := target } ∧
       (OrdersService.updateStatus s oid admin target note).1.orders =
         s.orders.map
           (fun o => if o.id == oid then { o with status := target } else o) ∧
       (OrdersService.updateStatus s oid admin target note).1.orderStatusHistory =
         s.orderStatusHistory ++
           [{ orderId := oid, status := target, note := note, changedBy := some admin }]) ∧
    (target ∉ STATUS_TRANSITIONS order.status →
       OrdersService.updateStatus s oid admin target note =
         (s, .error (.invalidTransition order.status target
            (STATUS_TRANSITIONS order.status)))) ∧
    (STATUS_TRANSITIONS .PENDING_PAYMENT = [.PAID, .CANCELLED, .FAILED] ∧
     STATUS_TRANSITIONS .PAID = [.PROCESSING, .CANCELLED, .REFUNDED] ∧
     STATUS_TRANSITIONS .PROCESSING = [.SHIPPED, .CANCELLED] ∧
     STATUS_TRANSITIONS .SHIPPED = [.DELIVERED, .FAILED] ∧
     STATUS_TRANSITIONS .DELIVERED = [.REFUNDED] ∧
     STATUS_TRANSITIONS .CANCELLED = [] ∧
     STATUS_TRANSITIONS .REFUNDED = [] ∧
     STATUS_TRANSITIONS .FAILED = [.PROCESSING]) := by
  refine ⟨?_, ?_, ?_, rfl, rfl, rfl, rfl, rfl, rfl, rfl, rfl⟩
  · constructor
    · rintro ⟨o, ho⟩
      by_cases hmem : target ∈ STATUS_TRANSITIONS order.status
      · exact hmem
      · unfold OrdersService.updateStatus at ho
        simp [h, hmem] at ho
    · intro hmem
      unfold OrdersService.updateStatus
      simp only [h]
      refine ⟨{ order with status := target }, ?_⟩
      simp [hmem]
  · intro hmem
    unfold OrdersService.updateStatus
    simp [h, hmem]
  · intro hmem
    unfold OrdersService.updateStatus
    simp [h, hmem]

/-- C2 witness: in a store with one `PENDING_PAYMENT` order,
PENDING_PAYMENT→PAID is accepted (appending one history row) and
PENDING_PAYMENT→PROCESSING is rejected naming the current state and its
allowed-next states. -/
theorem claim_C2_witness :
    (OrdersService.updateStatus orderState 1 7 .PAID none).2 =
      .ok { id := 1, userId := 2, status := .PAID, totalAmount := 1000,
            shippingAddress := "addr" } ∧
    (OrdersService.updateStatus orderState 1 7 .PAID none).1.orderStatusHistory =
      [{ orderId := 1, status := .PAID, note := none, changedBy := some 7 }] ∧
    OrdersService.updateStatus orderState 1 7 .PROCESSING none =
      (orderState, .error (.invalidTransition .PENDING_PAYMENT .PROCESSING
         [.PAID, .CANCELLED, .FAILED])) := by
  refine ⟨?_, ?_, ?_⟩
  · exact ((claim_C2_transition_closure orderState 1 7 .PAID none
      { id := 1, userId := 2, status := .PENDING_PAYMENT, totalAmount := 1000,
        shippingAddress := "addr" } (by decide)).2.1 (by decide)).1
  · have := ((claim_C2_transition_closure orderState 1 7 .PAID none
      { id := 1, userId := 2, status := .PENDING_PAYMENT, totalAmount := 1000,
        shippingAddress := "addr" } (by decide)).2.1 (by decide)).2.2
    simpa [orderState, baseState] using this
  · exact (claim_C2_transition_closure orderState 1 7 .PROCESSING none
      { id := 1, userId := 2, status := .PENDING_PAYMENT, totalAmount := 1000,
        shippingAddress := "addr" } (by decide)).2.2.1 (by decide)

/-- C8: the shipment status transition operation validates the target against
the allowed-next set of the shipment's current status in the same pattern as
the order lifecycle: for an existing shipment it succeeds iff
targetStatus ∈ SHIPMENT_STATUS_TRANSITIONS(current), whose table is exactly
ASSIGNED→{IN_TRANSIT,FAILED}, IN_TRANSIT→{DELIVERED,FAILED},
FAILED→{RETURNED,IN_TRANSIT}, with DELIVERED and RETURNED terminal; any other
target fails InvalidTransition carrying the current status and the
allowed-next list, changing nothing. -/
theorem claim_C8_shipment_transition (s : State) (sid : Nat)
    (target : ShipmentStatus) (note : Option String) (sh : Shipment)
    (h : s.findShipment sid = some sh) :
    ((∃ x, (ShipmentsService.transition s sid target note).2 = .ok x) ↔
       target ∈ SHIPMENT_STATUS_TRANSITIONS sh.status) ∧
    (target ∈ SHIPMENT_STATUS_TRANSITIONS sh.status →
       (ShipmentsService.transition s sid target note).2 =
         .ok { sh with status := target } ∧
       (ShipmentsService.transition s sid target note).1.shipments =
         s.shipments.map
           (fun x => if x.id == sid then { x with status := target } else x)) ∧
    (target ∉ SHIPMENT_STATUS_TRANSITIONS sh.status →
       ShipmentsService.transition s sid target note =
         (s, .error (.shipmentInvalidTransition sh.status target
            (SHIPMENT_STATUS_TRANSITIONS sh.status)))) ∧
    (SHIPMENT_STATUS_TRANSITIONS .ASSIGNED = [.IN_TRANSIT, .FAILED] ∧
     SHIPMENT_STATUS_TRANSITIONS .IN_TRANSIT = [.DELIVERED, .FAILED] ∧
     SHIPMENT_STATUS_TRANSITIONS .FAILED = [.RETURNED, .IN_TRANSIT] ∧
     SHIPMENT_STATUS_TRANSITIONS .DELIVERED = [] ∧
     SHIPMENT_STATUS_TRANSITIONS .RETURNED = []) := by
  refine ⟨?_, ?_, ?_, rfl, rfl, rfl, rfl, rfl⟩
  · constructor
    · rintro ⟨x, hx⟩
      by_cases hmem : target ∈ SHIPMENT_STATUS_TRANSITIONS sh.status
      · exact hmem
      · unfold ShipmentsService.transition at hx
        simp [h, hmem] at hx
    · intro hmem
      unfold ShipmentsService.transition
      simp only [h]
      refine ⟨{ sh with status := target }, ?_⟩
      simp [hmem]
  · intro hmem
    unfold ShipmentsService.transition
    simp [h, hmem]
  · intro hmem
    unfold ShipmentsService.transition
    simp [h, hmem]

/-- C8 witness: an `ASSIGNED` shipment may move to `IN_TRANSIT` but not
directly to `DELIVERED`. -/
theorem claim_C8_witness :
    (ShipmentsService.transition shipmentState 1 .IN_TRANSIT none).2 =
      .ok { id := 1, orderId := 1, staffUserId := 9, status := .IN_TRANSIT,
            trackingNumber := none } ∧
    ShipmentsService.transition shipmentState 1 .DELIVERED none =
      (shipmentState, .error (.shipmentInvalidTransition .ASSIGNED .DELIVERED
         [.IN_TRANSIT, .FAILED])) := by
  constructor
  · exact ((claim_C8_shipment_transition shipmentState 1 .IN_TRANSIT none
      { id := 1, orderId := 1, staffUserId := 9, status := .ASSIGNED,
        trackingNumber := none } (by decide)).2.1 (by decide)).1
  · exact (claim_C8_shipment_transition shipmentState 1 .DELIVERED none
      { id := 1, orderId := 1, staffUserId := 9, status := .ASSIGNED,
        trackingNumber := none } (by decide)).2.2.1 (by decide)

theorem shipCreate_error_state_eq (s : State) (dto : CreateShipmentDto) (e : Err)
    (h : (ShipmentsService.create s dto).2 = .error e) :
    (ShipmentsService.create s dto).1 = s := by
  unfold ShipmentsService.create at h ⊢
  cases hfo : s.findOrder dto.orderId with
  | none => simp [hfo]
  | some order =>
    simp only [hfo] at h ⊢
    by_cases hst : order.status = .PAID ∨ order.status = .PROCESSING
    · rw [if_pos hst] at h ⊢
      cases hfs : s.findShipmentByOrder dto.orderId with
      | some sh0 => simp [hfs]
      | none =>
        simp only [hfs] at h ⊢
        cases hfu : s.findUser dto.staffUserId with
        | none => simp [hfu]
        | some staff =>
          simp only [hfu] at h ⊢
          by_cases hrole : staff.role = "staff"
          · simp [hrole] at h
          · simp [hrole]
    · rw [if_neg hst]

theorem shipCreate_ok_elim (s : State) (dto : CreateShipmentDto) (sh : Shipment)
    (hok : (ShipmentsService.create s dto).2 = .ok sh) :
    sh = { id := s.nextShipmentId, orderId := dto.orderId,
           staffUserId := dto.staffUserId, status := .ASSIGNED,
           trackingNumber := dto.trackingNumber } ∧
    s.findShipmentByOrder dto.orderId = none ∧
    (ShipmentsService.create s dto).1.shipments = s.shipments ++ [sh] ∧
    (∀ order, s.findOrder dto.orderId = some order →
       (order.status = .PAID ∨ order.status = .PROCESSING) ∧
       (order.status = .PAID →
          (ShipmentsService.create s dto).1.orders =
            s.orders.map
              (fun o => if o.id == dto.orderId then { o with status := .PROCESSING } else o) ∧
          (ShipmentsService.create s dto).1.orderStatusHistory =
            s.orderStatusHistory ++
              [{ orderId := dto.orderId, status := .PROCESSING,
                 note := some "Shipment created - order moved to PROCESSING",
                 changedBy := none }]) ∧
       (order.status ≠ .PAID →
          (ShipmentsService.create s dto).1.orders = s.orders ∧
          (ShipmentsService.create s dto).1.orderStatusHistory =
            s.orderStatusHistory)) := by
  unfold ShipmentsService.create at hok ⊢
  cases hfo : s.findOrder dto.orderId with
  | none => simp [hfo] at hok
  | some order =>
    simp only [hfo] at hok ⊢
    by_cases hst : order.status = .PAID ∨ order.status = .PROCESSING
    · rw [if_pos hst] at hok ⊢
      cases hfs : s.findShipmentByOrder dto.orderId with
      | some sh0 => simp [hfs] at hok
      | none =>
        simp only [hfs] at hok ⊢
        cases hfu : s.findUser dto.staffUserId with
        | none => simp [hfu] at hok
        | some staff =>
          simp only [hfu] at hok ⊢
          by_cases hrole : staff.role = "staff"
          · rw [if_pos hrole] at hok ⊢
            by_cases hpaid : order.status = .PAID
            · rw [if_pos hpaid] at hok ⊢
              dsimp only at hok ⊢
              injection hok with h2
              subst h2
              refine ⟨rfl, by trivial, rfl, ?_⟩
              intro order' h'
              injection h' with h3
              subst h3
              exact ⟨hst, fun _ => ⟨rfl, rfl⟩, fun hne => absurd hpaid hne⟩
            · rw [if_neg hpaid] at hok ⊢
              dsimp only at hok ⊢
              injection hok with h2
              subst h2
              refine ⟨rfl, by trivial, rfl, ?_⟩
              intro order' h'
              injection h' with h3
              subst h3
              exact ⟨hst, fun hp => absurd hp hpaid, fun _ => ⟨rfl, rfl⟩⟩
          · simp [hrole] at hok
    · rw [if_neg hst] at hok
      simp at hok

/-- C7: `createShipment` fails NotFound when the order does not exist, fails
InvalidState unless the order is `PAID` or `PROCESSING`, fails Conflict when a
shipment already exists for the order (the shipments table carries a UNIQUE
constraint on order_id at the data layer, reflected here as preservation of
the at-most-one-shipment-per-order invariant); on success the shipment is
created in `ASSIGNED` and, when the order was `PAID`, the order moves to
`PROCESSING` with exactly one history row in the same atomic step, while a
`PROCESSING` order is left untouched. -/
theorem claim_C7_createShipment (s : State) (dto : CreateShipmentDto) :
    (s.findOrder dto.orderId = none →
       ShipmentsService.create s dto = (s, .error .orderNotFound)) ∧
    (∀ order, s.findOrder dto.orderId = some order →
       (¬(order.status = .PAID ∨ order.status = .PROCESSING) →
          ShipmentsService.create s dto =
            (s, .error (.orderNotShippable order.status))) ∧
       ((order.status = .PAID ∨ order.status = .PROCESSING) →
          ∀ sh0, s.findShipmentByOrder dto.orderId = some sh0 →
            ShipmentsService.create s dto = (s, .error .shipmentConflict))) ∧
    (∀ sh, (ShipmentsService.create s dto).2 = .ok sh →
       sh.status = .ASSIGNED ∧
       sh.orderId = dto.orderId ∧
       (ShipmentsService.create s dto).1.shipments = s.shipments ++ [sh] ∧
       (∀ order, s.findOrder dto.orderId = some order →
          (order.status = .PAID →
             (ShipmentsService.create s dto).1.orders =
               s.orders.map
                 (fun o =>
                   if o.id == dto.orderId then { o with status := .PROCESSING } else o) ∧
             (ShipmentsService.create s dto).1.orderStatusHistory =
               s.orderStatusHistory ++
                 [{ orderId := dto.orderId, status := .PROCESSING,
                    note := some "Shipment created - order moved to PROCESSING",
                    changedBy := none }]) ∧
          (order.status = .PROCESSING →
             (ShipmentsService.create s dto).1.orders = s.orders ∧
             (ShipmentsService.create s dto).1.orderStatusHistory =
               s.orderStatusHistory))) ∧
    ((∀ oid : Nat, (s.shipments.filter (fun x => x.orderId == oid)).length ≤ 1) →
       ∀ oid : Nat,
         ((ShipmentsService.create s dto).1.shipments.filter
             (fun x => x.orderId == oid)).length ≤ 1) := by
  refine ⟨?_, ?_, ?_, ?_⟩
  · intro h
    simp [ShipmentsService.create, h]
  · intro order h
    constructor
    · intro hns
      unfold ShipmentsService.create
      simp only [h]
      rw [if_neg hns]
    · intro hst sh0 hsh0
      unfold ShipmentsService.create
      simp only [h]
      rw [if_pos hst]
      simp [hsh0]
  · intro sh hok
    obtain ⟨hsh, hnone, hships, hord⟩ := shipCreate_ok_elim s dto sh hok
    refine ⟨by rw [hsh], by rw [hsh], hships, ?_⟩
    intro order h
    obtain ⟨hst, hpaid, hnotpaid⟩ := hord order h
    refine ⟨hpaid, ?_⟩
    intro hproc
    exact hnotpaid (by rw [hproc]; intro hc; cases hc)
  · intro huniq oid
    cases hres : (ShipmentsService.create s dto).2 with
    | error e =>
      rw [shipCreate_error_state_eq s dto e hres]
      exact huniq oid
    | ok sh =>
      obtain ⟨hsh, hnone, hships, _⟩ := shipCreate_ok_elim s dto sh hres
      rw [hships, List.filter_append]
      by_cases ho : dto.orderId = oid
      · have hempty : s.shipments.filter (fun x => x.orderId == oid) = [] := by
          apply filter_eq_nil_of_find?_eq_none
          rw [← ho]
          exact hnone
        rw [hempty]
        simp [hsh, ho]
      · have hfilter : List.filter (fun x => x.orderId == oid) [sh] = [] := by
          simp [hsh, ho]
        rw [hfilter]
        simpa using huniq oid

theorem aggQty_cons (it : OrderItemDto) (rest : List OrderItemDto) (pid : Nat) :
    aggQty (it :: rest) pid =
      (if it.productId == pid then it.quantity else 0) + aggQty rest pid := by
  by_cases h : it.productId == pid <;>
    simp [aggQty, List.filter_cons, h]

theorem aggQty_eq_zero_of_not_mem (rest : List OrderItemDto) (pid : Nat)
    (h : ∀ it ∈ rest, it.productId ≠ pid) : aggQty rest pid = 0 := by
  unfold aggQty
  have : rest.filter (fun it => it.productId == pid) = [] := by
    rw [List.filter_eq_nil_iff]
    intro it hit
    simpa using h it hit
  rw [this]
  rfl

theorem findProduct_set (s : State) (pid pid' : Nat) (v : Int) :
    (OrdersService.State.setProductInventory s pid v).findProduct pid' =
      (s.findProduct pid').map
        (fun p => if p.id == pid then { p with inventory := v } else p) := by
  unfold OrdersService.State.setProductInventory State.findProduct
  exact find?_map_pred _ _ (fun p => by by_cases h : p.id == pid <;> simp [h]) s.products

theorem invOf_set_self (s : State) (pid : Nat) (v : Int) (p : Product)
    (h : s.findProduct pid = some p) :
    invOf (OrdersService.State.setProductInventory s pid v) pid = v := by
  have hpid : p.id = pid := by
    have h' : s.products.find? (fun q => q.id == pid) = some p := h
    simpa using List.find?_some h'
  unfold invOf
  rw [findProduct_set, h]
  simp [hpid]

theorem invOf_set_other (s : State) (pid pid' : Nat) (v : Int) (hne : pid' ≠ pid) :
    invOf (OrdersService.State.setProductInventory s pid v) pid' = invOf s pid' := by
  unfold invOf
  rw [findProduct_set]
  cases h : s.findProduct pid' with
  | none => rfl
  | some p =>
    have hid : (p.id == pid') = true := by
      have h' : s.products.find? (fun q => q.id == pid') = some p := h
      simpa using List.find?_some h'
    have hpid : p.id = pid' := by simpa using hid
    have hne' : ¬ p.id = pid := by
      rw [hpid]
      exact hne
    simp [hne']

theorem invOf_of_findProduct (s : State) (pid : Nat) (p : Product)
    (h : s.findProduct pid = some p) : invOf s pid = p.inventory := by
  unfold invOf
  rw [h]

theorem reserveStock_frame (items : List OrderItemDto) :
    ∀ s s1 : State, OrdersService.reserveStock s items = .ok s1 →
      s1.inventoryItems = s.inventoryItems ∧
      s1.inventoryAdjustments = s.inventoryAdjustments ∧
      s1.orders = s.orders ∧
      s1.orderItems = s.orderItems ∧
      s1.orderStatusHistory = s.orderStatusHistory ∧
      s1.shipments = s.shipments ∧
      s1.users = s.users ∧
      s1.nextOrderId = s.nextOrderId := by
  induction items with
  | nil =>
    intro s s1 h
    unfold OrdersService.reserveStock at h
    injection h with h2
    subst h2
    exact ⟨rfl, rfl, rfl, rfl, rfl, rfl, rfl, rfl⟩
  | cons it rest ih =>
    intro s s1 h
    unfold OrdersService.reserveStock at h
    cases hf : s.findProduct it.productId with
    | none => simp [hf] at h
    | some p =>
      simp only [hf] at h
      by_cases hq : it.quantity ≤ p.inventory
      · rw [if_pos hq] at h
        have := ih _ _ h
        simpa [OrdersService.State.setProductInventory] using this
      · rw [if_neg hq] at h
        cases h

theorem reserveStock_invOf (items : List OrderItemDto) :
    ∀ s s1 : State, OrdersService.reserveStock s items = .ok s1 →
      ∀ pid, invOf s1 pid = invOf s pid - aggQty items pid := by
  induction items with
  | nil =>
    intro s s1 h pid
    unfold OrdersService.reserveStock at h
    injection h with h2
    subst h2
    simp [aggQty]
  | cons it rest ih =>
    intro s s1 h pid
    unfold OrdersService.reserveStock at h
    cases hf : s.findProduct it.productId with
    | none => simp [hf] at h
    | some p =>
      simp only [hf] at h
      by_cases hq : it.quantity ≤ p.inventory
      · rw [if_pos hq] at h
        have hrec := ih _ _ h pid
        rw [aggQty_cons]
        by_cases hp : it.productId = pid
        · subst hp
          rw [invOf_set_self s it.productId _ p hf] at hrec
          rw [invOf_of_findProduct s it.productId p hf]
          simp only [beq_self_eq_true, if_true] at hrec ⊢
          omega
        · rw [invOf_set_other s it.productId pid _ (fun hc => hp hc.symm)] at hrec
          have hb : (it.productId == pid) = false := by
            simp only [beq_eq_false_iff_ne, ne_eq]
            exact hp
          simp only [hb, Bool.false_eq_true, if_false]
          omega
      · rw [if_neg hq] at h
        cases h

theorem reserveStock_nonneg (items : List OrderItemDto) :
    ∀ s s1 : State, OrdersService.reserveStock s items = .ok s1 →
      ∀ pid, (∃ it ∈ items, it.productId = pid) → 0 ≤ invOf s1 pid := by
  induction items with
  | nil =>
    intro s s1 _ pid hmem
    obtain ⟨it, hit, -⟩ := hmem
    cases hit
  | cons it rest ih =>
    intro s s1 h pid hmem
    unfold OrdersService.reserveStock at h
    cases hf : s.findProduct it.productId with
    | none => simp [hf] at h
    | some p =>
      simp only [hf] at h
      by_cases hq : it.quantity ≤ p.inventory
      · rw [if_pos hq] at h
        by_cases hrest : ∃ it' ∈ rest, it'.productId = pid
        · exact ih _ _ h pid hrest
        · obtain ⟨it0, hit0, hpid0⟩ := hmem
          have hit0' : it0 = it := by
            cases hit0 with
            | head => rfl
            | tail _ htl => exact absurd ⟨it0, htl, hpid0⟩ hrest
          subst hit0'
          subst hpid0
          have hrec := reserveStock_invOf rest _ _ h it0.productId
          have hzero : aggQty rest it0.productId = 0 := by
            apply aggQty_eq_zero_of_not_mem
            intro it' hit' hc
            exact hrest ⟨it', hit', hc⟩
          rw [hzero, invOf_set_self s it0.productId _ p hf] at hrec
          omega
      · rw [if_neg hq] at h
        cases h

theorem validateItems_ok_mem (s : State) (items : List OrderItemDto)
    (h : OrdersService.validateItems s items = .ok ()) :
    ∀ it ∈ items, itemOk s it := by
  induction items with
  | nil => intro it hit; cases hit
  | cons a rest ih =>
    intro it hit
    unfold OrdersService.validateItems at h
    cases hf : s.findProduct a.productId with
    | none => simp [hf] at h
    | some p =>
      simp only [hf] at h
      by_cases hstat : p.status ≠ "active"
      · rw [if_pos hstat] at h; cases h
      · rw [if_neg hstat] at h
        by_cases hinv : p.inventory < a.quantity
        · rw [if_pos hinv] at h; cases h
        · rw [if_neg hinv] at h
          cases hit with
          | head =>
            exact ⟨p, hf, by simpa using hstat, by omega⟩
          | tail _ htl =>
            exact ih h it htl

theorem validateItems_cons_ok (s : State) (a : OrderItemDto)
    (tail : List OrderItemDto) (hok : itemOk s a) :
    OrdersService.validateItems s (a :: tail) =
      OrdersService.validateItems s tail := by
  obtain ⟨p, hf, hstat, hinv⟩ := hok
  have hstat' : ¬ p.status ≠ "active" := by simp [hstat]
  have hinv' : ¬ p.inventory < a.quantity := by omega
  rw [OrdersService.validateItems.eq_2]
  simp only [hf]
  rw [if_neg hstat', if_neg hinv']

theorem validateItems_append_ok (s : State) (pre rest : List OrderItemDto)
    (h : ∀ it ∈ pre, itemOk s it) :
    OrdersService.validateItems s (pre ++ rest) =
      OrdersService.validateItems s rest := by
  induction pre with
  | nil => rfl
  | cons a pre' ih =>
    rw [List.cons_append, validateItems_cons_ok s a _ (h a (by simp))]
    exact ih (fun it hit => h it (by simp [hit]))

theorem create_error_state_eq (s : State) (u : Nat) (dto : CreateOrderDto) (e : Err)
    (h : (OrdersService.create s u dto).2 = .error e) :
    (OrdersService.create s u dto).1 = s := by
  unfold OrdersService.create at h ⊢
  cases hv : OrdersService.validateItems s dto.items with
  | error e' => simp [hv]
  | ok u' =>
    cases u'
    simp only [hv] at h ⊢
    cases hr : OrdersService.reserveStock s dto.items with
    | error e' => simp [hr]
    | ok s1 =>
      simp only [hr] at h ⊢
      cases h

theorem create_ok_elim (s : State) (u : Nat) (dto : CreateOrderDto) (order : Order)
    (h : (OrdersService.create s u dto).2 = .ok order) :
    OrdersService.validateItems s dto.items = .ok () ∧
    order.id = s.nextOrderId ∧
    order.userId = u ∧
    order.status = .PENDING_PAYMENT ∧
    order.totalAmount = (dto.items.map (OrdersService.itemTotalCents s)).sum ∧
    ∃ s1, OrdersService.reserveStock s dto.items = .ok s1 ∧
      (OrdersService.create s u dto).1.products = s1.products ∧
      (OrdersService.create s u dto).1.inventoryItems = s.inventoryItems ∧
      (OrdersService.create s u dto).1.inventoryAdjustments = s.inventoryAdjustments ∧
      (OrdersService.create s u dto).1.orders = s.orders ++ [order] ∧
      (OrdersService.create s u dto).1.orderItems =
        s.orderItems ++ dto.items.map (OrdersService.mkOrderItem s order.id) ∧
      (OrdersService.create s u dto).1.orderStatusHistory =
        s.orderStatusHistory ++
          [{ orderId := order.id, status := .PENDING_PAYMENT,
             note := some "Order created", changedBy := some u }] := by
  unfold OrdersService.create at h ⊢
  cases hv : OrdersService.validateItems s dto.items with
  | error e' => simp [hv] at h
  | ok u' =>
    cases u'
    simp only [hv] at h ⊢
    cases hr : OrdersService.reserveStock s dto.items with
    | error e' => simp [hr] at h
    | ok s1 =>
      simp only [hr] at h
      dsimp only at h ⊢
      injection h with h2
      subst h2
      obtain ⟨hinv, hadj, hords, hoitems, hhist, -, -, -⟩ :=
        reserveStock_frame dto.items s s1 hr
      refine ⟨?_, rfl, rfl, rfl, rfl, s1, ?_, rfl, hinv, hadj, ?_, ?_, ?_⟩
      · first | trivial | rfl
      · first | trivial | rfl
      · rw [hords]
      · rw [hoitems]
      · rw [hhist]

/-- C7 witness: for a `PAID` order and a staff assignee, `create` inserts the
shipment in `ASSIGNED`, moves the order to `PROCESSING` and appends exactly one
history row in the same step. -/
theorem claim_C7_witness :
    (ShipmentsService.create shipCreateState
        { orderId := 1, staffUserId := 9, trackingNumber := none }).1.shipments =
      [{ id := 1, orderId := 1, staffUserId := 9, status := .ASSIGNED,
         trackingNumber := none }] ∧
    (ShipmentsService.create shipCreateState
        { orderId := 1, staffUserId := 9, trackingNumber := none }).1.orders =
      [{ id := 1, userId := 2, status := .PROCESSING, totalAmount := 1000,
         shippingAddress := "addr" }] ∧
    (ShipmentsService.create shipCreateState
        { orderId := 1, staffUserId := 9, trackingNumber := none }).1.orderStatusHistory =
      [{ orderId := 1, status := .PROCESSING,
         note := some "Shipment created - order moved to PROCESSING",
         changedBy := none }] := by
  have h := (claim_C7_createShipment shipCreateState
    { orderId := 1, staffUserId := 9, trackingNumber := none }).2.2.1
    { id := 1, orderId := 1, staffUserId := 9, status := .ASSIGNED,
      trackingNumber := none } (by rfl)
  obtain ⟨-, -, hships, hord⟩ := h
  have h2 := hord
    { id := 1, userId := 2, status := .PAID, totalAmount := 1000,
      shippingAddress := "addr" } (by decide)
  obtain ⟨horders, hhist⟩ := h2.1 rfl
  refine ⟨?_, ?_, ?_⟩
  · rw [hships]; rfl
  · rw [horders]; rfl
  · rw [hhist]; rfl

/-- C1 counterexample: in a store where product 1 exists, is active, and has
zero stock while product 2 does not exist, `create` on the item list
[{1, qty 1}, {2, qty 1}] fails with the insufficient-stock error for product 1
— not with NotFound for product 2 — even though an item references a
nonexistent product, because validation runs per item in list order. -/
theorem claim_C1_counterexample :
    (OrdersService.create mixedFailState 1 mixedFailDto).2 =
      .error (.insufficientStock "A" 1 0) ∧
    mixedFailDto.items =
      [{ productId := 1, quantity := 1 }, { productId := 2, quantity := 1 }] ∧
    mixedFailState.findProduct 2 = none ∧
    Err.insufficientStock "A" 1 0 ≠ Err.productNotFound 2 := by
  exact ⟨by rfl, by decide, by decide, by decide⟩

/-- C1 (amended): `create` validates the items sequentially in list order, and
the failure reported is that of the first invalid item — NotFound naming the
productId when it references a nonexistent product, InvalidState when its
product is not `'active'`, InsufficientStock naming requested vs. available
when available < requested; on any failure at any step the state is unchanged:
no order row, no order items, no history row, and no stock decrement persist. -/
theorem claim_C1_amended (s : State) (u : Nat) (dto : CreateOrderDto) :
    (∀ e, (OrdersService.create s u dto).2 = .error e →
       (OrdersService.create s u dto).1 = s) ∧
    (∀ pre item post, dto.items = pre ++ item :: post →
       (∀ it ∈ pre, itemOk s it) →
       ((s.findProduct item.productId = none →
           (OrdersService.create s u dto).2 =
             .error (.productNotFound item.productId)) ∧
        (∀ p, s.findProduct item.productId = some p → p.status ≠ "active" →
           (OrdersService.create s u dto).2 =
             .error (.productNotPurchasable p.name)) ∧
        (∀ p, s.findProduct item.productId = some p → p.status = "active" →
           p.inventory < item.quantity →
           (OrdersService.create s u dto).2 =
             .error (.insufficientStock p.name item.quantity p.inventory)))) := by
  constructor
  · intro e h
    exact create_error_state_eq s u dto e h
  · intro pre item post hitems hpre
    have hval : OrdersService.validateItems s dto.items =
        OrdersService.validateItems s (item :: post) := by
      rw [hitems]
      exact validateItems_append_ok s pre _ hpre
    refine ⟨?_, ?_, ?_⟩
    · intro hnone
      have hv : OrdersService.validateItems s dto.items =
          .error (.productNotFound item.productId) := by
        rw [hval, OrdersService.validateItems.eq_2]
        simp only [hnone]
      simp [OrdersService.create, hv]
    · intro p hp hne
      have hv : OrdersService.validateItems s dto.items =
          .error (.productNotPurchasable p.name) := by
        rw [hval, OrdersService.validateItems.eq_2]
        simp only [hp]
        rw [if_pos hne]
      simp [OrdersService.create, hv]
    · intro p hp hact hlt
      have hne' : ¬ p.status ≠ "active" := by simp [hact]
      have hv : OrdersService.validateItems s dto.items =
          .error (.insufficientStock p.name item.quantity p.inventory) := by
        rw [hval, OrdersService.validateItems.eq_2]
        simp only [hp]
        rw [if_neg hne', if_pos hlt]
      simp [OrdersService.create, hv]

/-- C1 witness: an order whose only item references the nonexistent product 2
fails NotFound naming it, and the state is unchanged. -/
theorem claim_C1_witness :
    (OrdersService.create mixedFailState 1
        { items := [{ productId := 2, quantity := 1 }],
          shippingAddress := "addr" }).2 = .error (.productNotFound 2) ∧
    (OrdersService.create mixedFailState 1
        { items := [{ productId := 2, quantity := 1 }],
          shippingAddress := "addr" }).1 = mixedFailState := by
  have h := claim_C1_amended mixedFailState 1
    { items := [{ productId := 2, quantity := 1 }], shippingAddress := "addr" }
  have h2 := ((h.2 [] { productId := 2, quantity := 1 } [] rfl
    (fun it hit => absurd hit (List.not_mem_nil it))).1 (by rfl))
  exact ⟨h2, h.1 _ h2⟩

theorem unitPriceCents_eq_roundHalfUp (p : Product) :
    unitPriceCents p = roundHalfUp (p.price * 100) := by
  unfold unitPriceCents roundHalfUp
  have hden0 : ((p.price.den : ℚ)) ≠ 0 := Nat.cast_ne_zero.mpr p.price.den_nz
  have hden2 : (((2 * p.price.den : Nat) : ℚ)) ≠ 0 := by
    push_cast
    positivity
  have hmul : ((p.price.num : ℚ)) = p.price * p.price.den :=
    (div_eq_iff hden0).mp (Rat.num_div_den p.price)
  have key : p.price * 100 + 1 / 2 =
      (((200 * p.price.num + (p.price.den : Int)) : Int) : ℚ) /
        (((2 * p.price.den : Nat)) : ℚ) := by
    rw [eq_div_iff hden2]
    push_cast
    linear_combination (-200 : ℚ) * hmul
  rw [key, Rat.floor_intCast_div_natCast]
  push_cast
  rfl

/-- C4: on every successful `create`, the inserted order items are exactly the
request lines priced from the catalog read — each line's unitPrice is the
catalog price times 100 rounded half-up to an integer cent amount,
`jsRound (p.price * 100)` — and the order's totalAmount equals the sum over
the inserted items of unitPrice × quantity.  The caller's DTO carries only
productId and quantity (no price field), so neither value can depend on a
caller-supplied price. -/
theorem claim_C4_price_integrity (s : State) (u : Nat) (dto : CreateOrderDto)
    (order : Order) (h : (OrdersService.create s u dto).2 = .ok order) :
    (OrdersService.create s u dto).1.orderItems =
      s.orderItems ++ dto.items.map (OrdersService.mkOrderItem s order.id) ∧
    (∀ it ∈ dto.items, ∃ p, s.findProduct it.productId = some p ∧
       OrdersService.mkOrderItem s order.id it =
         { orderId := order.id, productId := it.productId,
           productName := p.name, quantity := it.quantity,
           unitPrice := roundHalfUp (p.price * 100) }) ∧
    order.totalAmount =
      ((dto.items.map (OrdersService.mkOrderItem s order.id)).map
          (fun oi => oi.unitPrice * oi.quantity)).sum := by
  obtain ⟨hvalid, -, -, -, htot, s1, -, -, -, -, -, hoitems, -⟩ :=
    create_ok_elim s u dto order h
  refine ⟨hoitems, ?_, ?_⟩
  · intro it hit
    obtain ⟨p, hp, -, -⟩ := validateItems_ok_mem s dto.items hvalid it hit
    refine ⟨p, hp, ?_⟩
    unfold OrdersService.mkOrderItem
    simp only [hp]
    rw [unitPriceCents_eq_roundHalfUp]
  · rw [htot, List.map_map]
    refine congrArg List.sum ?_
    apply List.map_congr_left
    intro it _
    unfold OrdersService.itemTotalCents OrdersService.mkOrderItem
    cases hp : s.findProduct it.productId with
    | none => simp [hp]
    | some p => simp [hp]

/-- C4 witness: ordering 3 units of product 1 (catalog price 10) freezes
unitPrice 1000 cents on the line and totals 3000 cents. -/
theorem claim_C4_witness :
    (OrdersService.create scenarioState 1 singleLineDto).1.orderItems =
      [{ orderId := 1, productId := 1, productName := "P", quantity := 3,
         unitPrice := 1000 }] ∧
    (3000 : Int) =
      ((singleLineDto.items.map (OrdersService.mkOrderItem scenarioState 1)).map
          (fun oi => oi.unitPrice * oi.quantity)).sum := by
  have h := claim_C4_price_integrity scenarioState 1 singleLineDto
    { id := 1, userId := 1, status := .PENDING_PAYMENT, totalAmount := 3000,
      shippingAddress := "a" } (by rfl)
  constructor
  · rw [h.1]
    decide
  · exact h.2.2

/-- C5 counterexample: with product 1 at stock 5, the duplicate-line order
[{1,3},{1,3}] (aggregate 6 > 5) passes the stock-validation phase — the
quantities are NOT aggregated per product before validation; each line is
checked independently against the same undecremented total — and the order is
instead rejected later, inside the transaction, by the second conditional
decrement, with the stock-changed conflict error rather than
InsufficientStock. -/
theorem claim_C5_counterexample :
    OrdersService.validateItems scenarioState dupLinesDto.items = .ok () ∧
    aggQty dupLinesDto.items 1 = 6 ∧
    invOf scenarioState 1 = 5 ∧
    (OrdersService.create scenarioState 1 dupLinesDto).2 =
      .error (.stockChanged 1) ∧
    Err.stockChanged 1 ≠ Err.insufficientStock "P" 6 5 := by
  exact ⟨by rfl, by decide, by decide, by rfl, by decide⟩

/-- C5 (amended): the requested quantities are not aggregated before the
pre-transaction stock validation (each line is checked independently against
the same undecremented total), but every line's conditional decrement inside
the transaction runs against the progressively decremented stored counter, so
an order whose aggregate quantity for a product exceeds its available stock is
still rejected — `create` can only succeed when, for every product appearing
in the item list, the aggregate requested quantity is at most the available
stock — and any rejection leaves the state unchanged. -/
theorem claim_C5_amended (s : State) (u : Nat) (dto : CreateOrderDto) :
    (∀ order, (OrdersService.create s u dto).2 = .ok order →
       ∀ pid, (∃ it ∈ dto.items, it.productId = pid) →
         aggQty dto.items pid ≤ invOf s pid) ∧
    (∀ e, (OrdersService.create s u dto).2 = .error e →
       (OrdersService.create s u dto).1 = s) := by
  constructor
  · intro order h pid hmem
    obtain ⟨-, -, -, -, -, s1, hr, -⟩ := create_ok_elim s u dto order h
    have h1 := reserveStock_invOf dto.items s s1 hr pid
    have h2 := reserveStock_nonneg dto.items s s1 hr pid hmem
    omega
  · intro e h
    exact create_error_state_eq s u dto e h

/-- C5 witness: the successful scenario order (3 of product 1 against stock 5)
satisfies the aggregate bound, and the duplicate-line rejection leaves the
state unchanged. -/
theorem claim_C5_witness :
    aggQty singleLineDto.items 1 ≤ invOf scenarioState 1 ∧
    (OrdersService.create scenarioState 1 dupLinesDto).1 = scenarioState := by
  constructor
  · exact (claim_C5_amended scenarioState 1 singleLineDto).1
      { id := 1, userId := 1, status := .PENDING_PAYMENT, totalAmount := 3000,
        shippingAddress := "a" } (by rfl) 1
      ⟨{ productId := 1, quantity := 3 }, by decide, rfl⟩
  · exact (claim_C5_amended scenarioState 1 dupLinesDto).2
      (.stockChanged 1) (by rfl)

/-- C6 counterexample: run the spec §8 scenario against the code.  After
`adjust(P, +20)` both counters are 25.  `createOrder([{P, qty:3}])` succeeds
with totalAmount 3 × 1000 cents, but it decrements only the catalog counter
`products.inventory` (25 → 22) and leaves the ledger record
`inventory_items.quantity` at 25.  The subsequent `adjust(P, −25)` therefore
does NOT fail InvalidAdjustment: it succeeds (25 − 25 = 0 ≥ 0) and the ledger
quantity becomes 0, not 22. -/
theorem claim_C6_counterexample :
    (OrdersService.create scenarioAfterRestock 1 singleLineDto).2 =
      .ok { id := 1, userId := 1, status := .PENDING_PAYMENT,
            totalAmount := 3000, shippingAddress := "a" } ∧
    invOf scenarioAfterOrder 1 = 22 ∧
    ledgerQty scenarioAfterOrder 1 = 25 ∧
    (InventoryService.adjust scenarioAfterOrder 1 (-25) none none 9).2 =
      .ok ({ id := 1, productId := 1, quantity := 0, lowStockThreshold := 10,
             lastAdjustedAt := some 9 }, -25) ∧
    ledgerQty (InventoryService.adjust scenarioAfterOrder 1 (-25) none none 9).1 1 = 0 := by
  exact ⟨by rfl, by decide, by decide, by rfl, by decide⟩

/-- C6 (amended): a successful `create` reserves stock on the catalog counter
only: `products.inventory` of every product decreases by exactly the aggregate
ordered quantity, while the inventory-ledger records (`inventory_items`) are
untouched.  In the spec scenario the catalog counter becomes 22 but the ledger
stays 25, so the later `adjust(P, −25)` succeeds and drives the ledger to 0. -/
theorem claim_C6_amended (s : State) (u : Nat) (dto : CreateOrderDto)
    (order : Order) (h : (OrdersService.create s u dto).2 = .ok order) :
    (∀ pid, invOf (OrdersService.create s u dto).1 pid =
       invOf s pid - aggQty dto.items pid) ∧
    (OrdersService.create s u dto).1.inventoryItems = s.inventoryItems := by
  obtain ⟨-, -, -, -, -, s1, hr, hprod, hinvitems, -⟩ :=
    create_ok_elim s u dto order h
  constructor
  · intro pid
    have hstep := reserveStock_invOf dto.items s s1 hr pid
    have hsame : invOf (OrdersService.create s u dto).1 pid = invOf s1 pid := by
      unfold invOf State.findProduct
      rw [hprod]
    rw [hsame, hstep]
  · exact hinvitems

/-- C6 witness: instantiating the amended claim on the scenario order shows the
catalog counter drops 25 → 22 while the ledger list is untouched. -/
theorem claim_C6_witness :
    invOf (OrdersService.create scenarioAfterRestock 1 singleLineDto).1 1 = 22 ∧
    (OrdersService.create scenarioAfterRestock 1 singleLineDto).1.inventoryItems =
      scenarioAfterRestock.inventoryItems := by
  have h := claim_C6_amended scenarioAfterRestock 1 singleLineDto
    { id := 1, userId := 1, status := .PENDING_PAYMENT, totalAmount := 3000,
      shippingAddress := "a" } (by rfl)
  refine ⟨?_, h.2⟩
  rw [h.1 1]
  decide

end ECom
